import Mathlib

/-!
# Versioned sync wire protocol: shallow embedding

Shallow embedding of `finality-aleph/src/sync/data.rs`: the message model
(`State`, `BranchKnowledge`, `Request`, `NetworkDataV1`, `NetworkData`), the
versioned envelope codec for `VersionedNetworkData` (version tag + 32-bit
byte length + payload), the conversions between the two logical message
shapes, and the `VersionWrapper` network adapter.

Modelling conventions:
* byte streams are `List Nat` consumed from the front; a decoder returns the
  decoded value together with the remaining stream, or `none` on failure
  (mirroring `parity_scale_codec`'s stateful `Input` and `Result`);
* `Version` is the crate's newtype over `u16` (SCALE-encoded as two
  little-endian bytes); it is represented as a `Nat`, with `< 2 ^ 16` stated
  as a hypothesis where the `u16` type bound matters;
* `ByteCount` is `u32`, four little-endian bytes;
* `MAX_SYNC_MESSAGE_SIZE` (`MAX_BLOCK_SIZE * 11`, with `MAX_BLOCK_SIZE` an
  externally defined per-chain constant) is a parameter `maxSyncMessageSize`
  of the definitions that consult it; as a `u32` value it is `< 2 ^ 32`;
* the inner SCALE codecs of `NetworkDataV1` / `NetworkData` are derived for
  type parameters supplied by out-of-scope collaborators, so the envelope
  definitions are parametric in those encoders/decoders; a concrete lawful
  instantiation is provided for evaluation;
* logging is side-channel only: the encode-side size warning is modelled as
  the boolean predicate the source guards the `warn!` with, and the
  adapter's receive loop returns the list of versions it warned about.
-/

namespace AlephSync

/-! ## Fixed-width little-endian integer codecs (SCALE primitives) -/

/-- SCALE encoding of a `u16` value: two little-endian bytes. -/
def encodeU16 (n : Nat) : List Nat :=
  [n % 256, n / 256 % 256]

/-- SCALE decoding of a `u16` value: read two little-endian bytes. -/
def decodeU16 : List Nat → Option (Nat × List Nat)
  | b0 :: b1 :: rest => some (b0 + 256 * b1, rest)
  | _ => none

/-- SCALE encoding of a `u32` value: four little-endian bytes. -/
def encodeU32 (n : Nat) : List Nat :=
  [n % 256, n / 256 % 256, n / 65536 % 256, n / 16777216 % 256]

/-- SCALE decoding of a `u32` value: read four little-endian bytes. -/
def decodeU32 : List Nat → Option (Nat × List Nat)
  | b0 :: b1 :: b2 :: b3 :: rest =>
      some (b0 + 256 * b1 + 65536 * b2 + 16777216 * b3, rest)
  | _ => none

/-! ## Message model

`State<J>`, `BranchKnowledge<J>`, `Request<J>`, `NetworkDataV1<J>`,
`NetworkData<B, J>` from the source, parametric in the out-of-scope
collaborator types: `Id` is `BlockIdFor<J>`, `U` is `J::Unverified`,
`H` is `J::Header`, `Bk` is the block type `B`. -/

/-- `State<J>`: the database state sent to other nodes; in this version only
the top justification (`J::Unverified`). -/
structure State (U : Type) where
  top_justification : U
deriving DecidableEq, Repr

/-- `BranchKnowledge<J>`: information about the branch connecting the top
finalized block with a given one. -/
inductive BranchKnowledge (Id : Type) where
  /-- ID of the oldest known ancestor if none of them are imported. -/
  | LowestId (id : Id)
  /-- ID of the top imported ancestor if any of them is imported. -/
  | TopImported (id : Id)
deriving DecidableEq, Repr

/-- `Request<J>`: request content. -/
structure Request (Id U : Type) where
  target_id : Id
  branch_knowledge : BranchKnowledge Id
  state : State U
deriving DecidableEq, Repr

/-- `NetworkDataV1<J>`: the legacy logical message shape. -/
inductive NetworkDataV1 (Id U : Type) where
  /-- A periodic state broadcast. -/
  | StateBroadcast (s : State U)
  /-- Response to a state broadcast: at most two justifications. -/
  | StateBroadcastResponse (j : U) (maybe_j : Option U)
  /-- An explicit request for data. -/
  | Request (r : Request Id U)
  /-- Response to the request for data: justifications only. -/
  | RequestResponse (justifications : List U)
deriving DecidableEq, Repr

/-- `NetworkData<B, J>`: the current logical message shape; request
responses additionally carry headers and blocks. -/
inductive NetworkData (Id U H Bk : Type) where
  /-- A periodic state broadcast. -/
  | StateBroadcast (s : State U)
  /-- Response to a state broadcast: at most two justifications. -/
  | StateBroadcastResponse (j : U) (maybe_j : Option U)
  /-- An explicit request for data. -/
  | Request (r : Request Id U)
  /-- Response to the request for data. -/
  | RequestResponse (justifications : List U) (headers : List H) (blocks : List Bk)
deriving DecidableEq, Repr

/-- `VersionedNetworkData<B, J>`: the outer envelope, the only type placed on
the wire. The version in `Other` is the crate's `u16` newtype `Version`,
modelled as `Nat`. -/
inductive VersionedNetworkData (Id U H Bk : Type) where
  /-- Most likely from the future. -/
  | Other (version : Nat) (payload : List Nat)
  | V1 (data : NetworkDataV1 Id U)
  | V2 (data : NetworkData Id U H Bk)
deriving DecidableEq, Repr

/-! ## Version conversion

`impl From<NetworkDataV1<J>> for NetworkData<B, J>` and
`impl From<NetworkData<B, J>> for NetworkDataV1<J>`: total structural
mappings, no error conditions. -/

/-- `From<NetworkDataV1> for NetworkData`: the upward conversion; a legacy
request response gains two empty sequences. -/
def NetworkData.fromV1 {Id U H Bk : Type} :
    NetworkDataV1 Id U → NetworkData Id U H Bk
  | .StateBroadcast state => .StateBroadcast state
  | .StateBroadcastResponse justification maybe_justification =>
      .StateBroadcastResponse justification maybe_justification
  | .Request request => .Request request
  | .RequestResponse justifications => .RequestResponse justifications [] []

/-- `From<NetworkData> for NetworkDataV1`: the downward conversion; request
response headers and blocks are dropped. -/
def NetworkDataV1.fromNetworkData {Id U H Bk : Type} :
    NetworkData Id U H Bk → NetworkDataV1 Id U
  | .StateBroadcast state => .StateBroadcast state
  | .StateBroadcastResponse justification maybe_justification =>
      .StateBroadcastResponse justification maybe_justification
  | .Request request => .Request request
  | .RequestResponse justifications _ _ => .RequestResponse justifications

/-! ## Versioned envelope codec -/

/-- `encode_with_version`: `version_tag || byte_length || payload`. The
length is `payload.len().try_into().unwrap_or(ByteCount::MAX)`, i.e. the
payload length saturated to `u32::MAX`. -/
def encode_with_version (version : Nat) (payload : List Nat) : List Nat :=
  encodeU16 version ++ encodeU32 (min payload.length (2 ^ 32 - 1)) ++ payload

/-- The condition under which `encode_with_version` emits its size-exceeded
warning: the saturated size is greater than `MAX_SYNC_MESSAGE_SIZE`. -/
def encode_size_warning (maxSyncMessageSize : Nat) (payload : List Nat) : Bool :=
  decide (min payload.length (2 ^ 32 - 1) > maxSyncMessageSize)

/-- `Encode::encode` for `VersionedNetworkData`, parametric in the derived
SCALE encoders of the inner message types. -/
def VersionedNetworkData.encode {Id U H Bk : Type}
    (encV1 : NetworkDataV1 Id U → List Nat)
    (encV2 : NetworkData Id U H Bk → List Nat) :
    VersionedNetworkData Id U H Bk → List Nat
  | .Other version payload => encode_with_version version payload
  | .V1 data => encode_with_version 1 (encV1 data)
  | .V2 data => encode_with_version 2 (encV2 data)

/-- `Encode::size_hint` for `VersionedNetworkData`:
`size_of::<Version>() + size_of::<ByteCount>()` (2 + 4 bytes) plus the
payload length for `Other`, or the inner data's own size hint. -/
def VersionedNetworkData.size_hint {Id U H Bk : Type}
    (hintV1 : NetworkDataV1 Id U → Nat)
    (hintV2 : NetworkData Id U H Bk → Nat) :
    VersionedNetworkData Id U H Bk → Nat
  | .Other _ payload => 2 + 4 + payload.length
  | .V1 data => 2 + 4 + hintV1 data
  | .V2 data => 2 + 4 + hintV2 data

/-- `Decode::decode` for `VersionedNetworkData`: read the version tag and
the byte count; dispatch known versions to the inner decoders (the byte
count is not re-validated for them); for unknown versions reject a declared
length above `maxSyncMessageSize`, otherwise read exactly that many raw
bytes (failing if the input is shorter). -/
def VersionedNetworkData.decode {Id U H Bk : Type} (maxSyncMessageSize : Nat)
    (decV1 : List Nat → Option (NetworkDataV1 Id U × List Nat))
    (decV2 : List Nat → Option (NetworkData Id U H Bk × List Nat))
    (input : List Nat) : Option (VersionedNetworkData Id U H Bk × List Nat) :=
  match decodeU16 input with
  | none => none
  | some (version, afterVersion) =>
    match decodeU32 afterVersion with
    | none => none
    | some (num_bytes, afterCount) =>
      if version = 1 then
        (decV1 afterCount).map fun dr => (.V1 dr.1, dr.2)
      else if version = 2 then
        (decV2 afterCount).map fun dr => (.V2 dr.1, dr.2)
      else if num_bytes > maxSyncMessageSize then
        none
      else if afterCount.length < num_bytes then
        none
      else
        some (.Other version (afterCount.take num_bytes), afterCount.drop num_bytes)

/-! ## Version-bridging network adapter (`VersionWrapper`)

The wrapped `GossipNetwork` is modelled by its operations: an effectful call
is a function from the network's internal state `S` to a result paired with
the updated state. `P` is the transport's `PeerId`, `PS` the peer-set type
passed to `send_to_random` (`HashSet<PeerId>`, opaque here), `E` the
transport's `Error`. The `?` operator is explicit short-circuiting. -/

/-- `VersionWrapper::send_to`: send `V1` of the downward conversion first
(`?`-propagating its error), then `V2` of the original data. -/
def VersionWrapper.send_to {Id U H Bk P E S : Type}
    (innerSendTo : S → VersionedNetworkData Id U H Bk → P → Except E Unit × S)
    (s : S) (data : NetworkData Id U H Bk) (peer_id : P) : Except E Unit × S :=
  match innerSendTo s (.V1 (NetworkDataV1.fromNetworkData data)) peer_id with
  | (.error e, s1) => (.error e, s1)
  | (.ok _, s1) => innerSendTo s1 (.V2 data) peer_id

/-- `VersionWrapper::send_to_random`: like `send_to`, over a peer set. -/
def VersionWrapper.send_to_random {Id U H Bk PS E S : Type}
    (innerSendToRandom : S → VersionedNetworkData Id U H Bk → PS → Except E Unit × S)
    (s : S) (data : NetworkData Id U H Bk) (peer_ids : PS) : Except E Unit × S :=
  match innerSendToRandom s (.V1 (NetworkDataV1.fromNetworkData data)) peer_ids with
  | (.error e, s1) => (.error e, s1)
  | (.ok _, s1) => innerSendToRandom s1 (.V2 data) peer_ids

/-- `VersionWrapper::broadcast`: like `send_to`, without a peer argument. -/
def VersionWrapper.broadcast {Id U H Bk E S : Type}
    (innerBroadcast : S → VersionedNetworkData Id U H Bk → Except E Unit × S)
    (s : S) (data : NetworkData Id U H Bk) : Except E Unit × S :=
  match innerBroadcast s (.V1 (NetworkDataV1.fromNetworkData data)) with
  | (.error e, s1) => (.error e, s1)
  | (.ok _, s1) => innerBroadcast s1 (.V2 data)

/-- An instrumented inner `send_to` whose state is the trace of performed
sends, with outcomes given by an oracle: used to express how many underlying
sends the adapter performs and in which order. Reused for `send_to_random`
by instantiating the peer type at the peer-set type. -/
def traceSendTo {Id U H Bk P E : Type}
    (oracle : VersionedNetworkData Id U H Bk → P → Except E Unit) :
    List (VersionedNetworkData Id U H Bk × P) → VersionedNetworkData Id U H Bk → P →
    Except E Unit × List (VersionedNetworkData Id U H Bk × P) :=
  fun trace msg peer => (oracle msg peer, trace ++ [(msg, peer)])

/-- An instrumented inner `broadcast` whose state is the trace of performed
broadcasts, with outcomes given by an oracle. -/
def traceBroadcast {Id U H Bk E : Type}
    (oracle : VersionedNetworkData Id U H Bk → Except E Unit) :
    List (VersionedNetworkData Id U H Bk) → VersionedNetworkData Id U H Bk →
    Except E Unit × List (VersionedNetworkData Id U H Bk) :=
  fun trace msg => (oracle msg, trace ++ [msg])

/-- `VersionWrapper::next`: the underlying transport is modelled as the list
of outcomes its own `next` will yield, in order (an empty list means the
transport would suspend forever). The result is the list of versions warned
about (one warning per discarded `Other` message) paired with `none` if the
loop never returns, or the returned value and the unconsumed tail of the
underlying stream. An `Err` from the inner `next` propagates via `?`; `V1`
data is converted up; `V2` data is returned directly. -/
def VersionWrapper.next {Id U H Bk P E : Type} :
    List (Except E (VersionedNetworkData Id U H Bk × P)) →
    List Nat ×
      Option (Except E (NetworkData Id U H Bk × P) ×
        List (Except E (VersionedNetworkData Id U H Bk × P)))
  | [] => ([], none)
  | .error e :: rest => ([], some (.error e, rest))
  | .ok (.Other version _, _) :: rest =>
      (version :: (VersionWrapper.next rest).1, (VersionWrapper.next rest).2)
  | .ok (.V1 data, peer_id) :: rest =>
      ([], some (.ok (NetworkData.fromV1 data, peer_id), rest))
  | .ok (.V2 data, peer_id) :: rest =>
      ([], some (.ok (data, peer_id), rest))

/-! ## A concrete lawful instantiation of the inner codecs

The inner SCALE codecs for `NetworkDataV1` / `NetworkData` are derived over
out-of-scope collaborator types, so the theorems below are parametric in
them, assuming only the codec round-trip law. The following concrete codecs
(all collaborator types instantiated at `Nat`) satisfy that law and make the
hypotheses evaluable on concrete inputs. -/

/-- A lawful, self-delimiting encoding of `Nat` (stand-in for a collaborator
type's codec). -/
def natEnc : Nat → List Nat
  | 0 => [0]
  | n + 1 => 1 :: natEnc n

/-- Decoder matching `natEnc`. -/
def natDec : List Nat → Option (Nat × List Nat)
  | [] => none
  | 0 :: rest => some (0, rest)
  | (_ + 1) :: rest => (natDec rest).map fun nr => (nr.1 + 1, nr.2)

/-- Sequence encoding: encoded length followed by the encoded elements. -/
def listEnc {α : Type} (e : α → List Nat) (xs : List α) : List Nat :=
  natEnc xs.length ++ (xs.map e).flatten

/-- Decode exactly `n` elements. -/
def listDecCount {α : Type} (d : List Nat → Option (α × List Nat)) :
    Nat → List Nat → Option (List α × List Nat)
  | 0, input => some ([], input)
  | n + 1, input =>
    match d input with
    | none => none
    | some (x, rest) => (listDecCount d n rest).map fun lr => (x :: lr.1, lr.2)

/-- Decoder matching `listEnc`. -/
def listDec {α : Type} (d : List Nat → Option (α × List Nat))
    (input : List Nat) : Option (List α × List Nat) :=
  match natDec input with
  | none => none
  | some (n, rest) => listDecCount d n rest

/-- Encoding for `Option`: a presence byte, then the value if present. -/
def optionEnc {α : Type} (e : α → List Nat) : Option α → List Nat
  | none => [0]
  | some a => 1 :: e a

/-- Decoder matching `optionEnc`. -/
def optionDec {α : Type} (d : List Nat → Option (α × List Nat)) :
    List Nat → Option (Option α × List Nat)
  | 0 :: rest => some (none, rest)
  | 1 :: rest => (d rest).map fun ar => (some ar.1, ar.2)
  | _ => none

/-- Concrete codec for `State Nat`. -/
def stateEncN (s : State Nat) : List Nat :=
  natEnc s.top_justification

/-- Decoder matching `stateEncN`. -/
def stateDecN (input : List Nat) : Option (State Nat × List Nat) :=
  (natDec input).map fun nr => (⟨nr.1⟩, nr.2)

/-- Concrete codec for `BranchKnowledge Nat`: a variant byte then the id. -/
def branchKnowledgeEncN : BranchKnowledge Nat → List Nat
  | .LowestId i => 0 :: natEnc i
  | .TopImported i => 1 :: natEnc i

/-- Decoder matching `branchKnowledgeEncN`. -/
def branchKnowledgeDecN : List Nat → Option (BranchKnowledge Nat × List Nat)
  | 0 :: rest => (natDec rest).map fun ir => (.LowestId ir.1, ir.2)
  | 1 :: rest => (natDec rest).map fun ir => (.TopImported ir.1, ir.2)
  | _ => none

/-- Concrete codec for `Request Nat Nat`: the fields in declaration order. -/
def requestEncN (r : Request Nat Nat) : List Nat :=
  natEnc r.target_id ++ branchKnowledgeEncN r.branch_knowledge ++ stateEncN r.state

/-- Decoder matching `requestEncN`. -/
def requestDecN (input : List Nat) : Option (Request Nat Nat × List Nat) :=
  match natDec input with
  | none => none
  | some (t, rest1) =>
    match branchKnowledgeDecN rest1 with
    | none => none
    | some (b, rest2) =>
      (stateDecN rest2).map fun sr => (⟨t, b, sr.1⟩, sr.2)

/-- Concrete codec for `NetworkDataV1 Nat Nat`: a variant byte then the
fields. -/
def networkDataV1EncN : NetworkDataV1 Nat Nat → List Nat
  | .StateBroadcast s => 0 :: stateEncN s
  | .StateBroadcastResponse j mj => 1 :: (natEnc j ++ optionEnc natEnc mj)
  | .Request r => 2 :: requestEncN r
  | .RequestResponse js => 3 :: listEnc natEnc js

/-- Decoder matching `networkDataV1EncN`. -/
def networkDataV1DecN : List Nat → Option (NetworkDataV1 Nat Nat × List Nat)
  | 0 :: rest => (stateDecN rest).map fun sr => (.StateBroadcast sr.1, sr.2)
  | 1 :: rest =>
    (match natDec rest with
     | none => none
     | some (j, rest1) =>
       (optionDec natDec rest1).map fun mr => (.StateBroadcastResponse j mr.1, mr.2))
  | 2 :: rest => (requestDecN rest).map fun rr => (.Request rr.1, rr.2)
  | 3 :: rest => (listDec natDec rest).map fun lr => (.RequestResponse lr.1, lr.2)
  | _ => none

/-- Concrete codec for `NetworkData Nat Nat Nat Nat`: a variant byte then
the fields. -/
def networkDataEncN : NetworkData Nat Nat Nat Nat → List Nat
  | .StateBroadcast s => 0 :: stateEncN s
  | .StateBroadcastResponse j mj => 1 :: (natEnc j ++ optionEnc natEnc mj)
  | .Request r => 2 :: requestEncN r
  | .RequestResponse js hs bs =>
      3 :: (listEnc natEnc js ++ listEnc natEnc hs ++ listEnc natEnc bs)

/-- Decoder matching `networkDataEncN`. -/
def networkDataDecN : List Nat → Option (NetworkData Nat Nat Nat Nat × List Nat)
  | 0 :: rest => (stateDecN rest).map fun sr => (.StateBroadcast sr.1, sr.2)
  | 1 :: rest =>
    (match natDec rest with
     | none => none
     | some (j, rest1) =>
       (optionDec natDec rest1).map fun mr => (.StateBroadcastResponse j mr.1, mr.2))
  | 2 :: rest => (requestDecN rest).map fun rr => (.Request rr.1, rr.2)
  | 3 :: rest =>
    (match listDec natDec rest with
     | none => none
     | some (js, rest1) =>
       match listDec natDec rest1 with
       | none => none
       | some (hs, rest2) =>
         (listDec natDec rest2).map fun br => (.RequestResponse js hs br.1, br.2))
  | _ => none

/-! ## Helper lemmas: primitive codecs -/

theorem decodeU16_encodeU16 (n : Nat) (hn : n < 2 ^ 16) (rest : List Nat) :
    decodeU16 (encodeU16 n ++ rest) = some (n, rest) := by
  simp only [encodeU16, decodeU16, List.cons_append, List.nil_append]
  congr 1
  congr 1
  omega

theorem decodeU32_encodeU32 (n : Nat) (hn : n < 2 ^ 32) (rest : List Nat) :
    decodeU32 (encodeU32 n ++ rest) = some (n, rest) := by
  simp only [encodeU32, decodeU32, List.cons_append, List.nil_append]
  congr 1
  congr 1
  omega

theorem encodeU16_length (n : Nat) : (encodeU16 n).length = 2 := rfl

theorem encodeU32_length (n : Nat) : (encodeU32 n).length = 4 := rfl

/-! ## Helper lemmas: the concrete instantiation is lawful -/

theorem natDec_natEnc (n : Nat) (rest : List Nat) :
    natDec (natEnc n ++ rest) = some (n, rest) := by
  induction n with
  | zero => rfl
  | succ m ih => simp [natEnc, natDec, ih]

theorem listDecCount_append {α : Type} (e : α → List Nat)
    (d : List Nat → Option (α × List Nat))
    (law : ∀ a rest, d (e a ++ rest) = some (a, rest))
    (xs : List α) (rest : List Nat) :
    listDecCount d xs.length ((xs.map e).flatten ++ rest) = some (xs, rest) := by
  induction xs with
  | nil => rfl
  | cons x xs ih =>
      simp only [List.map_cons, List.flatten_cons, List.length_cons,
        List.append_assoc, listDecCount, law, ih, Option.map_some']

theorem listDec_listEnc {α : Type} (e : α → List Nat)
    (d : List Nat → Option (α × List Nat))
    (law : ∀ a rest, d (e a ++ rest) = some (a, rest))
    (xs : List α) (rest : List Nat) :
    listDec d (listEnc e xs ++ rest) = some (xs, rest) := by
  simp only [listEnc, listDec, List.append_assoc, natDec_natEnc]
  exact listDecCount_append e d law xs rest

theorem optionDec_optionEnc {α : Type} (e : α → List Nat)
    (d : List Nat → Option (α × List Nat))
    (law : ∀ a rest, d (e a ++ rest) = some (a, rest))
    (x : Option α) (rest : List Nat) :
    optionDec d (optionEnc e x ++ rest) = some (x, rest) := by
  cases x with
  | none => rfl
  | some a => simp [optionEnc, optionDec, law]

theorem stateDecN_stateEncN (s : State Nat) (rest : List Nat) :
    stateDecN (stateEncN s ++ rest) = some (s, rest) := by
  simp [stateEncN, stateDecN, natDec_natEnc]

theorem branchKnowledgeDecN_encN (b : BranchKnowledge Nat) (rest : List Nat) :
    branchKnowledgeDecN (branchKnowledgeEncN b ++ rest) = some (b, rest) := by
  cases b <;> simp [branchKnowledgeEncN, branchKnowledgeDecN, natDec_natEnc]

theorem requestDecN_requestEncN (r : Request Nat Nat) (rest : List Nat) :
    requestDecN (requestEncN r ++ rest) = some (r, rest) := by
  simp [requestEncN, requestDecN, List.append_assoc, natDec_natEnc,
    branchKnowledgeDecN_encN, stateDecN_stateEncN]

theorem networkDataV1DecN_encN (d : NetworkDataV1 Nat Nat) (rest : List Nat) :
    networkDataV1DecN (networkDataV1EncN d ++ rest) = some (d, rest) := by
  cases d with
  | StateBroadcast s =>
      simp [networkDataV1EncN, networkDataV1DecN, stateDecN_stateEncN]
  | StateBroadcastResponse j mj =>
      simp [networkDataV1EncN, networkDataV1DecN, List.append_assoc,
        natDec_natEnc, optionDec_optionEnc natEnc natDec natDec_natEnc]
  | Request r =>
      simp [networkDataV1EncN, networkDataV1DecN, requestDecN_requestEncN]
  | RequestResponse js =>
      simp [networkDataV1EncN, networkDataV1DecN,
        listDec_listEnc natEnc natDec natDec_natEnc]

theorem networkDataDecN_encN (d : NetworkData Nat Nat Nat Nat) (rest : List Nat) :
    networkDataDecN (networkDataEncN d ++ rest) = some (d, rest) := by
  cases d with
  | StateBroadcast s =>
      simp [networkDataEncN, networkDataDecN, stateDecN_stateEncN]
  | StateBroadcastResponse j mj =>
      simp [networkDataEncN, networkDataDecN, List.append_assoc,
        natDec_natEnc, optionDec_optionEnc natEnc natDec natDec_natEnc]
  | Request r =>
      simp [networkDataEncN, networkDataDecN, requestDecN_requestEncN]
  | RequestResponse js hs bs =>
      simp [networkDataEncN, networkDataDecN, List.append_assoc,
        listDec_listEnc natEnc natDec natDec_natEnc]

/-! ## Helper lemmas: the envelope -/

theorem encode_with_version_length (version : Nat) (payload : List Nat) :
    (encode_with_version version payload).length = 6 + payload.length := by
  simp [encode_with_version, encodeU16, encodeU32]
  omega

theorem encode_with_version_drop6 (version : Nat) (payload : List Nat) :
    (encode_with_version version payload).drop 6 = payload := by
  simp [encode_with_version, encodeU16, encodeU32]

theorem encode_with_version_drop2 (version : Nat) (payload : List Nat) :
    (encode_with_version version payload).drop 2 =
      encodeU32 (min payload.length (2 ^ 32 - 1)) ++ payload := by
  simp [encode_with_version, encodeU16]

/-- `encode_with_version` is the header-building followed by the payload,
with the byte count saturated. -/
theorem encode_with_version_eq (version : Nat) (payload : List Nat) :
    encode_with_version version payload =
      encodeU16 version ++ encodeU32 (min payload.length (2 ^ 32 - 1)) ++ payload := rfl

/-- Unfolding `VersionedNetworkData.decode` on a well-formed header. -/
theorem decode_header {Id U H Bk : Type} (maxSyncMessageSize : Nat)
    (decV1 : List Nat → Option (NetworkDataV1 Id U × List Nat))
    (decV2 : List Nat → Option (NetworkData Id U H Bk × List Nat))
    (version num_bytes : Nat) (hv : version < 2 ^ 16) (hn : num_bytes < 2 ^ 32)
    (tail : List Nat) :
    VersionedNetworkData.decode maxSyncMessageSize decV1 decV2
        (encodeU16 version ++ encodeU32 num_bytes ++ tail) =
      if version = 1 then
        (decV1 tail).map fun dr => (.V1 dr.1, dr.2)
      else if version = 2 then
        (decV2 tail).map fun dr => (.V2 dr.1, dr.2)
      else if num_bytes > maxSyncMessageSize then
        none
      else if tail.length < num_bytes then
        none
      else
        some (.Other version (tail.take num_bytes), tail.drop num_bytes) := by
  simp only [VersionedNetworkData.decode, List.append_assoc,
    decodeU16_encodeU16 version hv, decodeU32_encodeU32 num_bytes hn]

/-! ## Claims -/

/-- C1 (amended): decoding the bytes produced by encoding a
`VersionedNetworkData` value yields exactly that value (with any trailing
input preserved), for any inner codecs satisfying the SCALE round-trip law,
provided an `Other` value's version tag is a `u16` other than the
recognized tags 1 and 2 and its payload length is at most
`MAX_SYNC_MESSAGE_SIZE` (itself a `u32`). -/
theorem envelope_round_trip {Id U H Bk : Type} (maxSyncMessageSize : Nat)
    (encV1 : NetworkDataV1 Id U → List Nat)
    (decV1 : List Nat → Option (NetworkDataV1 Id U × List Nat))
    (encV2 : NetworkData Id U H Bk → List Nat)
    (decV2 : List Nat → Option (NetworkData Id U H Bk × List Nat))
    (lawV1 : ∀ d rest, decV1 (encV1 d ++ rest) = some (d, rest))
    (lawV2 : ∀ d rest, decV2 (encV2 d ++ rest) = some (d, rest))
    (hmax : maxSyncMessageSize < 2 ^ 32)
    (x : VersionedNetworkData Id U H Bk) (rest : List Nat)
    (hx : match x with
          | .Other version payload =>
              version < 2 ^ 16 ∧ version ≠ 1 ∧ version ≠ 2 ∧
                payload.length ≤ maxSyncMessageSize
          | _ => True) :
    VersionedNetworkData.decode maxSyncMessageSize decV1 decV2
        (VersionedNetworkData.encode encV1 encV2 x ++ rest) = some (x, rest) := by
  cases x with
  | Other version payload =>
      obtain ⟨hv, hv1, hv2, hlen⟩ := hx
      have hmin : min payload.length (2 ^ 32 - 1) = payload.length := by omega
      have hlt : payload.length < 2 ^ 32 := by omega
      rw [VersionedNetworkData.encode, encode_with_version_eq, hmin, List.append_assoc,
        decode_header maxSyncMessageSize decV1 decV2 version payload.length hv hlt
          (payload ++ rest)]
      rw [if_neg hv1, if_neg hv2, if_neg (by omega),
        if_neg (by simp), List.take_left, List.drop_left]
  | V1 data =>
      have hn : min (encV1 data).length (2 ^ 32 - 1) < 2 ^ 32 := by omega
      rw [VersionedNetworkData.encode, encode_with_version_eq, List.append_assoc,
        decode_header maxSyncMessageSize decV1 decV2 1 _ (by norm_num) hn
          (encV1 data ++ rest)]
      simp [lawV1]
  | V2 data =>
      have hn : min (encV2 data).length (2 ^ 32 - 1) < 2 ^ 32 := by omega
      rw [VersionedNetworkData.encode, encode_with_version_eq, List.append_assoc,
        decode_header maxSyncMessageSize decV1 decV2 2 _ (by norm_num) hn
          (encV2 data ++ rest)]
      simp [lawV2]

/-- C1 witness: the round trip evaluated on a concrete `Other` envelope with
the concrete lawful inner codecs. -/
theorem envelope_round_trip_witness :
    VersionedNetworkData.decode 100 networkDataV1DecN networkDataDecN
        (VersionedNetworkData.encode networkDataV1EncN networkDataEncN
          (VersionedNetworkData.Other 5 [1, 2]) ++ [9]) =
      some (VersionedNetworkData.Other 5 [1, 2], [9]) :=
  envelope_round_trip 100 networkDataV1EncN networkDataV1DecN
    networkDataEncN networkDataDecN networkDataV1DecN_encN networkDataDecN_encN
    (by norm_num) (VersionedNetworkData.Other 5 [1, 2]) [9] (by norm_num)

/-- C1 counterexample: the claim as stated, without restricting the `Other`
version to unrecognized tags, is false: `Other(1, [])` has payload length 0
(within the size ceiling) yet encoding writes the recognized tag 1, so
decoding hands the payload to the `NetworkDataV1` decoder instead of
reproducing the `Other` value. -/
theorem envelope_round_trip_claim_cex :
    ¬ (VersionedNetworkData.decode 100 networkDataV1DecN networkDataDecN
        (VersionedNetworkData.encode networkDataV1EncN networkDataEncN
          (VersionedNetworkData.Other 1 [])) =
      some (VersionedNetworkData.Other 1 [], [])) := by
  decide

/-- C2: for an input with an unrecognized version tag, if the declared
32-bit length exceeds `MAX_SYNC_MESSAGE_SIZE` then decoding fails no matter
what the remaining bytes are; otherwise decoding reads exactly that many
raw bytes and returns them as `Other(version, bytes)` uninterpreted (the
inner decoders are arbitrary and never consulted). -/
theorem decode_unknown_version_bounded {Id U H Bk : Type} (maxSyncMessageSize : Nat)
    (decV1 : List Nat → Option (NetworkDataV1 Id U × List Nat))
    (decV2 : List Nat → Option (NetworkData Id U H Bk × List Nat))
    (version num_bytes : Nat) (tail : List Nat)
    (hv : version < 2 ^ 16) (hv1 : version ≠ 1) (hv2 : version ≠ 2)
    (hn : num_bytes < 2 ^ 32) :
    (num_bytes > maxSyncMessageSize →
      VersionedNetworkData.decode maxSyncMessageSize decV1 decV2
        (encodeU16 version ++ encodeU32 num_bytes ++ tail) = none)
    ∧ (num_bytes ≤ maxSyncMessageSize → num_bytes ≤ tail.length →
      VersionedNetworkData.decode maxSyncMessageSize decV1 decV2
        (encodeU16 version ++ encodeU32 num_bytes ++ tail) =
        some (.Other version (tail.take num_bytes), tail.drop num_bytes)) := by
  rw [decode_header maxSyncMessageSize decV1 decV2 version num_bytes hv hn tail,
    if_neg hv1, if_neg hv2]
  constructor
  · intro hbig
    rw [if_pos hbig]
  · intro hsmall henough
    rw [if_neg (by omega), if_neg (by omega)]

/-- C2 witness: both branches evaluated at concrete inputs (declared length
6 over a ceiling of 5 is rejected regardless of content; declared length 2
under the ceiling reads exactly two raw bytes). -/
theorem decode_unknown_version_bounded_witness :
    VersionedNetworkData.decode 5 networkDataV1DecN networkDataDecN
        (encodeU16 7 ++ encodeU32 6 ++ [1, 2, 3, 4, 5, 6]) = none
    ∧ VersionedNetworkData.decode 5 networkDataV1DecN networkDataDecN
        (encodeU16 7 ++ encodeU32 2 ++ [1, 2, 3]) =
      some (.Other 7 [1, 2], [3]) :=
  ⟨(decode_unknown_version_bounded 5 networkDataV1DecN networkDataDecN
      7 6 [1, 2, 3, 4, 5, 6] (by norm_num) (by norm_num) (by norm_num)
      (by norm_num)).1 (by norm_num),
   (decode_unknown_version_bounded 5 networkDataV1DecN networkDataDecN
      7 2 [1, 2, 3] (by norm_num) (by norm_num) (by norm_num)
      (by norm_num)).2 (by norm_num) (by norm_num)⟩

/-- C3: converting `NetworkDataV1 → NetworkData → NetworkDataV1` is the
identity; converting `NetworkData → NetworkDataV1 → NetworkData` is the
identity on the `StateBroadcast`, `StateBroadcastResponse` and `Request`
variants, and replaces a request response's headers and blocks with empty
sequences while preserving the justifications. Both conversions are total
functions by construction. -/
theorem version_conversion_fidelity {Id U H Bk : Type} :
    (∀ v : NetworkDataV1 Id U,
      NetworkDataV1.fromNetworkData (@NetworkData.fromV1 Id U H Bk v) = v)
    ∧ (∀ s : State U,
      @NetworkData.fromV1 Id U H Bk
        (@NetworkDataV1.fromNetworkData Id U H Bk (.StateBroadcast s)) =
        .StateBroadcast s)
    ∧ (∀ (j : U) (mj : Option U),
      @NetworkData.fromV1 Id U H Bk
        (@NetworkDataV1.fromNetworkData Id U H Bk (.StateBroadcastResponse j mj)) =
        .StateBroadcastResponse j mj)
    ∧ (∀ r : Request Id U,
      @NetworkData.fromV1 Id U H Bk
        (@NetworkDataV1.fromNetworkData Id U H Bk (.Request r)) = .Request r)
    ∧ (∀ (js : List U) (hs : List H) (bs : List Bk),
      @NetworkData.fromV1 Id U H Bk
        (@NetworkDataV1.fromNetworkData Id U H Bk (.RequestResponse js hs bs)) =
        .RequestResponse js [] []) :=
  ⟨fun v => by cases v <;> rfl, fun _ => rfl, fun _ _ => rfl, fun _ => rfl,
    fun _ _ _ => rfl⟩

/-- C4: when both underlying sends succeed, each of the adapter's `send_to`,
`send_to_random` and `broadcast` performs exactly two underlying sends, in
order `V1` of the downward conversion then `V2` of the original data, to the
same peer (or peer set), and returns success. The underlying transport is
instrumented to record the exact trace of sends. -/
theorem dual_send {Id U H Bk P PS E : Type}
    (oracleP : VersionedNetworkData Id U H Bk → P → Except E Unit)
    (oracleR : VersionedNetworkData Id U H Bk → PS → Except E Unit)
    (oracleB : VersionedNetworkData Id U H Bk → Except E Unit)
    (d : NetworkData Id U H Bk) (p : P) (ps : PS)
    (h1 : oracleP (.V1 (NetworkDataV1.fromNetworkData d)) p = .ok ())
    (h2 : oracleP (.V2 d) p = .ok ())
    (h3 : oracleR (.V1 (NetworkDataV1.fromNetworkData d)) ps = .ok ())
    (h4 : oracleR (.V2 d) ps = .ok ())
    (h5 : oracleB (.V1 (NetworkDataV1.fromNetworkData d)) = .ok ())
    (h6 : oracleB (.V2 d) = .ok ()) :
    VersionWrapper.send_to (traceSendTo oracleP) [] d p =
      (.ok (), [(.V1 (NetworkDataV1.fromNetworkData d), p), (.V2 d, p)])
    ∧ VersionWrapper.send_to_random (traceSendTo oracleR) [] d ps =
      (.ok (), [(.V1 (NetworkDataV1.fromNetworkData d), ps), (.V2 d, ps)])
    ∧ VersionWrapper.broadcast (traceBroadcast oracleB) [] d =
      (.ok (), [.V1 (NetworkDataV1.fromNetworkData d), .V2 d]) := by
  refine ⟨?_, ?_, ?_⟩
  · simp [VersionWrapper.send_to, traceSendTo, h1, h2]
  · simp [VersionWrapper.send_to_random, traceSendTo, h3, h4]
  · simp [VersionWrapper.broadcast, traceBroadcast, h5, h6]

/-- C4 witness: the dual send evaluated against an always-succeeding
transport on a concrete state broadcast. -/
theorem dual_send_witness :
    VersionWrapper.send_to
        (traceSendTo (fun (_ : VersionedNetworkData Nat Nat Nat Nat) (_ : Nat) =>
          (Except.ok () : Except Nat Unit)))
        [] (NetworkData.StateBroadcast ⟨0⟩) 0 =
      (.ok (), [(.V1 (.StateBroadcast ⟨0⟩), 0), (.V2 (.StateBroadcast ⟨0⟩), 0)])
    ∧ VersionWrapper.send_to_random
        (traceSendTo (fun (_ : VersionedNetworkData Nat Nat Nat Nat) (_ : Nat) =>
          (Except.ok () : Except Nat Unit)))
        [] (NetworkData.StateBroadcast ⟨0⟩) 0 =
      (.ok (), [(.V1 (.StateBroadcast ⟨0⟩), 0), (.V2 (.StateBroadcast ⟨0⟩), 0)])
    ∧ VersionWrapper.broadcast
        (traceBroadcast (fun (_ : VersionedNetworkData Nat Nat Nat Nat) =>
          (Except.ok () : Except Nat Unit)))
        [] (NetworkData.StateBroadcast ⟨0⟩) =
      (.ok (), [.V1 (.StateBroadcast ⟨0⟩), .V2 (.StateBroadcast ⟨0⟩)]) :=
  dual_send _ _ _ (NetworkData.StateBroadcast ⟨0⟩) 0 0 rfl rfl rfl rfl rfl rfl

/-- C5: for each of `send_to`, `send_to_random` and `broadcast`: if the
first (`V1`) underlying send errors, the adapter returns exactly that error
and the trace shows the second send was not attempted; if the first
succeeds and the second (`V2`) errors, that error is returned verbatim
after both sends. No retry appears in the trace and the error value is
passed through unmodified. -/
theorem dual_send_fail_fast {Id U H Bk P PS E : Type}
    (oracleP : VersionedNetworkData Id U H Bk → P → Except E Unit)
    (oracleR : VersionedNetworkData Id U H Bk → PS → Except E Unit)
    (oracleB : VersionedNetworkData Id U H Bk → Except E Unit)
    (d : NetworkData Id U H Bk) (p : P) (ps : PS) (e : E) :
    (oracleP (.V1 (NetworkDataV1.fromNetworkData d)) p = .error e →
      VersionWrapper.send_to (traceSendTo oracleP) [] d p =
        (.error e, [(.V1 (NetworkDataV1.fromNetworkData d), p)]))
    ∧ (oracleP (.V1 (NetworkDataV1.fromNetworkData d)) p = .ok () →
       oracleP (.V2 d) p = .error e →
      VersionWrapper.send_to (traceSendTo oracleP) [] d p =
        (.error e, [(.V1 (NetworkDataV1.fromNetworkData d), p), (.V2 d, p)]))
    ∧ (oracleR (.V1 (NetworkDataV1.fromNetworkData d)) ps = .error e →
      VersionWrapper.send_to_random (traceSendTo oracleR) [] d ps =
        (.error e, [(.V1 (NetworkDataV1.fromNetworkData d), ps)]))
    ∧ (oracleR (.V1 (NetworkDataV1.fromNetworkData d)) ps = .ok () →
       oracleR (.V2 d) ps = .error e →
      VersionWrapper.send_to_random (traceSendTo oracleR) [] d ps =
        (.error e, [(.V1 (NetworkDataV1.fromNetworkData d), ps), (.V2 d, ps)]))
    ∧ (oracleB (.V1 (NetworkDataV1.fromNetworkData d)) = .error e →
      VersionWrapper.broadcast (traceBroadcast oracleB) [] d =
        (.error e, [.V1 (NetworkDataV1.fromNetworkData d)]))
    ∧ (oracleB (.V1 (NetworkDataV1.fromNetworkData d)) = .ok () →
       oracleB (.V2 d) = .error e →
      VersionWrapper.broadcast (traceBroadcast oracleB) [] d =
        (.error e, [.V1 (NetworkDataV1.fromNetworkData d), .V2 d])) := by
  refine ⟨?_, ?_, ?_, ?_, ?_, ?_⟩
  · intro hf
    simp [VersionWrapper.send_to, traceSendTo, hf]
  · intro hok hf
    simp [VersionWrapper.send_to, traceSendTo, hok, hf]
  · intro hf
    simp [VersionWrapper.send_to_random, traceSendTo, hf]
  · intro hok hf
    simp [VersionWrapper.send_to_random, traceSendTo, hok, hf]
  · intro hf
    simp [VersionWrapper.broadcast, traceBroadcast, hf]
  · intro hok hf
    simp [VersionWrapper.broadcast, traceBroadcast, hok, hf]

/-- C5 witness: fail-fast evaluated on concrete transports, one failing the
first send (only one send appears in the trace) and one failing the second
(both sends appear, the second error is returned). -/
theorem dual_send_fail_fast_witness :
    VersionWrapper.send_to
        (traceSendTo (fun (m : VersionedNetworkData Nat Nat Nat Nat) (_ : Nat) =>
          match m with
          | .V1 _ => (Except.error 7 : Except Nat Unit)
          | _ => .ok ()))
        [] (NetworkData.StateBroadcast ⟨0⟩) 0 =
      (.error 7, [(.V1 (.StateBroadcast ⟨0⟩), 0)])
    ∧ VersionWrapper.send_to
        (traceSendTo (fun (m : VersionedNetworkData Nat Nat Nat Nat) (_ : Nat) =>
          match m with
          | .V2 _ => (Except.error 8 : Except Nat Unit)
          | _ => .ok ()))
        [] (NetworkData.StateBroadcast ⟨0⟩) 0 =
      (.error 8, [(.V1 (.StateBroadcast ⟨0⟩), 0), (.V2 (.StateBroadcast ⟨0⟩), 0)]) :=
  ⟨(dual_send_fail_fast _
      (fun (_ : VersionedNetworkData Nat Nat Nat Nat) (_ : Nat) =>
        (Except.ok () : Except Nat Unit))
      (fun (_ : VersionedNetworkData Nat Nat Nat Nat) =>
        (Except.ok () : Except Nat Unit))
      (NetworkData.StateBroadcast ⟨0⟩) 0 0 7).1 rfl,
   (dual_send_fail_fast _
      (fun (_ : VersionedNetworkData Nat Nat Nat Nat) (_ : Nat) =>
        (Except.ok () : Except Nat Unit))
      (fun (_ : VersionedNetworkData Nat Nat Nat Nat) =>
        (Except.ok () : Except Nat Unit))
      (NetworkData.StateBroadcast ⟨0⟩) 0 0 8).2.1 rfl rfl⟩

/-- C6: the adapter's `next` discards an `Other` message (the caller never
sees it: the returned type has no `Other` arm), logging a warning carrying
its version and looping to the following message; `V1` data is returned
converted up to `NetworkData` with the sender's peer id; `V2` data is
returned directly; and in the scenario where the transport yields
`Other(99, junk)` then `V1(Request(r))`, the first successful `next`
returns `Request(r)` with one warning for version 99. -/
theorem receive_filtering {Id U H Bk P E : Type} :
    (∀ (version : Nat) (payload : List Nat) (q : P)
        (msgs : List (Except E (VersionedNetworkData Id U H Bk × P))),
      VersionWrapper.next (.ok (.Other version payload, q) :: msgs) =
        (version :: (VersionWrapper.next msgs).1, (VersionWrapper.next msgs).2))
    ∧ (∀ (data : NetworkDataV1 Id U) (p : P)
        (msgs : List (Except E (VersionedNetworkData Id U H Bk × P))),
      VersionWrapper.next (.ok (.V1 data, p) :: msgs) =
        ([], some (.ok (NetworkData.fromV1 data, p), msgs)))
    ∧ (∀ (data : NetworkData Id U H Bk) (p : P)
        (msgs : List (Except E (VersionedNetworkData Id U H Bk × P))),
      VersionWrapper.next (.ok (.V2 data, p) :: msgs) =
        ([], some (.ok (data, p), msgs)))
    ∧ (∀ (junk : List Nat) (q : P) (r : Request Id U) (p : P)
        (msgs : List (Except E (VersionedNetworkData Id U H Bk × P))),
      VersionWrapper.next
          (.ok (.Other 99 junk, q) :: .ok (.V1 (.Request r), p) :: msgs) =
        ([99], some (.ok (.Request r, p), msgs))) :=
  ⟨fun _ _ _ _ => rfl, fun _ _ _ => rfl, fun _ _ _ => rfl, fun _ _ _ _ _ => rfl⟩

/-- C7: encoding is total (it is a function); the 32-bit length field of
the envelope equals the payload's byte length when representable and is
saturated to the maximum 32-bit value otherwise; and a payload exceeding
`MAX_SYNC_MESSAGE_SIZE` only raises the warning flag while the full payload
bytes still follow the 6-byte header. -/
theorem encode_warn_saturate (version : Nat) (payload : List Nat)
    (maxSyncMessageSize : Nat) :
    (encode_with_version version payload).length = 6 + payload.length
    ∧ (encode_with_version version payload).drop 6 = payload
    ∧ (payload.length < 2 ^ 32 →
        decodeU32 ((encode_with_version version payload).drop 2) =
          some (payload.length, payload))
    ∧ (2 ^ 32 ≤ payload.length →
        decodeU32 ((encode_with_version version payload).drop 2) =
          some (2 ^ 32 - 1, payload))
    ∧ (maxSyncMessageSize < payload.length → payload.length < 2 ^ 32 →
        encode_size_warning maxSyncMessageSize payload = true) := by
  refine ⟨encode_with_version_length version payload,
    encode_with_version_drop6 version payload, ?_, ?_, ?_⟩
  · intro hrep
    rw [encode_with_version_drop2, min_eq_left (by omega),
      decodeU32_encodeU32 payload.length hrep]
  · intro hbig
    rw [encode_with_version_drop2, min_eq_right (by omega),
      decodeU32_encodeU32 (2 ^ 32 - 1) (by omega)]
  · intro hover hrep
    simp only [encode_size_warning, gt_iff_lt, decide_eq_true_eq]
    omega

/-- C7 witness: the header and saturation behaviour evaluated on a concrete
payload of length 3 with a ceiling of 1 (the warning fires, the payload is
still encoded in full). -/
theorem encode_warn_saturate_witness :
    (encode_with_version 7 [1, 2, 3]).length = 6 + 3
    ∧ (encode_with_version 7 [1, 2, 3]).drop 6 = [1, 2, 3]
    ∧ decodeU32 ((encode_with_version 7 [1, 2, 3]).drop 2) = some (3, [1, 2, 3])
    ∧ encode_size_warning 1 [1, 2, 3] = true :=
  ⟨(encode_warn_saturate 7 [1, 2, 3] 1).1,
   (encode_warn_saturate 7 [1, 2, 3] 1).2.1,
   (encode_warn_saturate 7 [1, 2, 3] 1).2.2.1 (by norm_num),
   (encode_warn_saturate 7 [1, 2, 3] 1).2.2.2.2 (by norm_num) (by norm_num)⟩

/-- C8: the size hint of a `VersionedNetworkData` value is at least the
byte length of its encoding, given that the inner size hints dominate the
inner encodings (the contract assumed of the out-of-scope derived codecs). -/
theorem size_hint_accuracy {Id U H Bk : Type}
    (encV1 : NetworkDataV1 Id U → List Nat) (hintV1 : NetworkDataV1 Id U → Nat)
    (encV2 : NetworkData Id U H Bk → List Nat) (hintV2 : NetworkData Id U H Bk → Nat)
    (hV1 : ∀ d, (encV1 d).length ≤ hintV1 d)
    (hV2 : ∀ d, (encV2 d).length ≤ hintV2 d)
    (x : VersionedNetworkData Id U H Bk) :
    (VersionedNetworkData.encode encV1 encV2 x).length ≤
      VersionedNetworkData.size_hint hintV1 hintV2 x := by
  cases x with
  | Other version payload =>
      rw [VersionedNetworkData.encode, VersionedNetworkData.size_hint,
        encode_with_version_length]
  | V1 data =>
      rw [VersionedNetworkData.encode, VersionedNetworkData.size_hint,
        encode_with_version_length]
      have := hV1 data
      omega
  | V2 data =>
      rw [VersionedNetworkData.encode, VersionedNetworkData.size_hint,
        encode_with_version_length]
      have := hV2 data
      omega

/-- C8 witness: the size-hint bound evaluated at a concrete `V1` value with
the concrete codecs, whose size hints are exactly their encoded lengths. -/
theorem size_hint_accuracy_witness :
    (VersionedNetworkData.encode networkDataV1EncN networkDataEncN
        (VersionedNetworkData.V1 (.RequestResponse [4]))).length ≤
      VersionedNetworkData.size_hint
        (fun d => (networkDataV1EncN d).length)
        (fun d => (networkDataEncN d).length)
        (VersionedNetworkData.V1 (.RequestResponse [4])) :=
  size_hint_accuracy networkDataV1EncN (fun d => (networkDataV1EncN d).length)
    networkDataEncN (fun d => (networkDataEncN d).length)
    (fun _ => Nat.le_refl _) (fun _ => Nat.le_refl _)
    (VersionedNetworkData.V1 (.RequestResponse [4]))

/-- C9: a successful decode never yields an `Other` value carrying a
recognized version tag; and encoding `Other(1, bytes)` (resp. `Other(2,
bytes)`) writes the recognized tag, so decoding that output hands the bytes
to the `NetworkDataV1` (resp. `NetworkData`) decoder, yielding `V1`/`V2` on
success or failing, never the original `Other`. -/
theorem decode_other_unrecognized {Id U H Bk : Type} (maxSyncMessageSize : Nat)
    (encV1 : NetworkDataV1 Id U → List Nat)
    (decV1 : List Nat → Option (NetworkDataV1 Id U × List Nat))
    (encV2 : NetworkData Id U H Bk → List Nat)
    (decV2 : List Nat → Option (NetworkData Id U H Bk × List Nat)) :
    (∀ (input : List Nat) (version : Nat) (payload remaining : List Nat),
      VersionedNetworkData.decode maxSyncMessageSize decV1 decV2 input =
        some (.Other version payload, remaining) → version ≠ 1 ∧ version ≠ 2)
    ∧ (∀ payload rest : List Nat,
      VersionedNetworkData.decode maxSyncMessageSize decV1 decV2
          (VersionedNetworkData.encode encV1 encV2 (.Other 1 payload) ++ rest) =
        (decV1 (payload ++ rest)).map fun dr => (.V1 dr.1, dr.2))
    ∧ (∀ payload rest : List Nat,
      VersionedNetworkData.decode maxSyncMessageSize decV1 decV2
          (VersionedNetworkData.encode encV1 encV2 (.Other 2 payload) ++ rest) =
        (decV2 (payload ++ rest)).map fun dr => (.V2 dr.1, dr.2)) := by
  refine ⟨?_, ?_, ?_⟩
  · intro input version payload remaining h
    unfold VersionedNetworkData.decode at h
    split at h
    · exact Option.noConfusion h
    · split at h
      · exact Option.noConfusion h
      · split_ifs at h with hv1 hv2 hbig hshort
        · simp only [Option.map_eq_some'] at h
          obtain ⟨⟨d, r⟩, -, heq⟩ := h
          exact absurd heq (by simp)
        · simp only [Option.map_eq_some'] at h
          obtain ⟨⟨d, r⟩, -, heq⟩ := h
          exact absurd heq (by simp)
        · simp only [Option.some.injEq, Prod.mk.injEq,
            VersionedNetworkData.Other.injEq] at h
          obtain ⟨⟨rfl, -⟩, -⟩ := h
          exact ⟨hv1, hv2⟩
  · intro payload rest
    have hn : min payload.length (2 ^ 32 - 1) < 2 ^ 32 := by omega
    rw [VersionedNetworkData.encode, encode_with_version_eq, List.append_assoc,
      decode_header maxSyncMessageSize decV1 decV2 1 _ (by norm_num) hn
        (payload ++ rest)]
    rw [if_pos rfl]
  · intro payload rest
    have hn : min payload.length (2 ^ 32 - 1) < 2 ^ 32 := by omega
    rw [VersionedNetworkData.encode, encode_with_version_eq, List.append_assoc,
      decode_header maxSyncMessageSize decV1 decV2 2 _ (by norm_num) hn
        (payload ++ rest)]
    rw [if_neg (by norm_num), if_pos rfl]

/-- C9 witness: a concrete successful decode into `Other` (version 5), whose
tag the first conjunct then shows is neither 1 nor 2. -/
theorem decode_other_unrecognized_witness :
    VersionedNetworkData.decode 100 networkDataV1DecN networkDataDecN
        (encodeU16 5 ++ encodeU32 2 ++ [1, 2]) =
      some (.Other 5 [1, 2], ([] : List Nat))
    ∧ (5 : Nat) ≠ 1 ∧ (5 : Nat) ≠ 2 :=
  ⟨by decide,
   (decode_other_unrecognized 100 networkDataV1EncN networkDataV1DecN
      networkDataEncN networkDataDecN).1
     (encodeU16 5 ++ encodeU32 2 ++ [1, 2]) 5 [1, 2] [] (by decide)⟩

/-- C10: an `Other` envelope with an unrecognized `u16` version tag and a
payload strictly longer than `MAX_SYNC_MESSAGE_SIZE` (but representable in
32 bits) still encodes, with the length field equal to the payload length,
yet decoding that very output fails, whatever the inner decoders are. -/
theorem oversized_other_no_round_trip {Id U H Bk : Type} (maxSyncMessageSize : Nat)
    (encV1 : NetworkDataV1 Id U → List Nat)
    (decV1 : List Nat → Option (NetworkDataV1 Id U × List Nat))
    (encV2 : NetworkData Id U H Bk → List Nat)
    (decV2 : List Nat → Option (NetworkData Id U H Bk × List Nat))
    (version : Nat) (payload : List Nat)
    (hv : version < 2 ^ 16) (hv1 : version ≠ 1) (hv2 : version ≠ 2)
    (hbig : maxSyncMessageSize < payload.length) (hrep : payload.length < 2 ^ 32) :
    decodeU32 ((VersionedNetworkData.encode encV1 encV2
        (.Other version payload)).drop 2) = some (payload.length, payload)
    ∧ VersionedNetworkData.decode maxSyncMessageSize decV1 decV2
        (VersionedNetworkData.encode encV1 encV2 (.Other version payload)) =
      none := by
  constructor
  · rw [VersionedNetworkData.encode, encode_with_version_drop2,
      min_eq_left (by omega), decodeU32_encodeU32 payload.length hrep]
  · rw [VersionedNetworkData.encode, encode_with_version_eq,
      min_eq_left (by omega),
      decode_header maxSyncMessageSize decV1 decV2 version payload.length hv hrep
        payload, if_neg hv1, if_neg hv2, if_pos (by omega)]

/-- C10 witness: with a ceiling of 2, the unrecognized-version envelope of a
3-byte payload encodes with length field 3 but fails to decode. -/
theorem oversized_other_no_round_trip_witness :
    decodeU32 ((VersionedNetworkData.encode networkDataV1EncN networkDataEncN
        (VersionedNetworkData.Other 5 [1, 2, 3])).drop 2) = some (3, [1, 2, 3])
    ∧ VersionedNetworkData.decode 2 networkDataV1DecN networkDataDecN
        (VersionedNetworkData.encode networkDataV1EncN networkDataEncN
          (VersionedNetworkData.Other 5 [1, 2, 3])) = none :=
  oversized_other_no_round_trip 2 networkDataV1EncN networkDataV1DecN
    networkDataEncN networkDataDecN 5 [1, 2, 3]
    (by norm_num) (by norm_num) (by norm_num) (by norm_num) (by norm_num)

end AlephSync
